import Mathlib

/-
Verification development for the intrendinc ad-platform backend.

Shallow embedding conventions used throughout this file:
- Times (column types Date, Date.now()) are modeled as integers; the unit
  (seconds or milliseconds) is irrelevant to the properties and only the
  ordering and addition of durations matter.
- Monetary and metric quantities are modeled as rationals.  The source
  runs on JavaScript numbers; every claim proved here concerns exact
  decimal arithmetic within the safe range, where the two agree.
- Each TypeORM repository is modeled as either a single optional row
  (session repositories, which are always filtered by userId and keep at
  most one row per user) or a list of rows (seat and cache repositories).
- External HTTP calls (OAuth token refresh) are modeled by passing the
  outcome of the call as an explicit argument.
- Numeric fields that the external APIs deliver as decimal strings are
  modeled by the numeric value they carry; an absent field is modeled by
  none.  JavaScript parseInt applied to such fields after the or-else
  guard substituting the string 0 yields exactly that value, or 0 when
  the field is absent.
-/

/-- PlatformMetrics mirrors the common interface in
src/common/interfaces/ad-platform.interface.ts: required impressions,
clicks, spend, cpc, cpm, ctr and optional reach, frequency, conversions,
costPerConversion, roas. Field order follows the interface. -/
structure PlatformMetrics where
  impressions : ℚ
  clicks : ℚ
  spend : ℚ
  reach : Option ℚ
  frequency : Option ℚ
  cpc : ℚ
  cpm : ℚ
  ctr : ℚ
  conversions : Option ℚ
  costPerConversion : Option ℚ
  roas : Option ℚ
deriving DecidableEq

namespace BaseAdPlatform

/-- calculateCTR from BaseAdPlatformService: 0 when impressions is 0,
else clicks divided by impressions times 100. -/
def calculateCTR (clicks impressions : ℚ) : ℚ :=
  if impressions = 0 then 0 else clicks / impressions * 100

/-- calculateCPC from BaseAdPlatformService: 0 when clicks is 0, else
spend divided by clicks. -/
def calculateCPC (spend clicks : ℚ) : ℚ :=
  if clicks = 0 then 0 else spend / clicks

/-- calculateCPM from BaseAdPlatformService: 0 when impressions is 0,
else spend divided by impressions times 1000. -/
def calculateCPM (spend impressions : ℚ) : ℚ :=
  if impressions = 0 then 0 else spend / impressions * 1000

/-- calculateROAS from BaseAdPlatformService: 0 when spend is 0, else
revenue divided by spend. -/
def calculateROAS (revenue spend : ℚ) : ℚ :=
  if spend = 0 then 0 else revenue / spend

end BaseAdPlatform

namespace GoogleAds

/-- Meaning of the JavaScript expression parseInt applied to an int64
string field guarded by the source pattern that substitutes the string 0
for a missing field: the carried integer value, or 0 when absent. -/
def parseIntOrZero (v : Option ℤ) : ℤ :=
  v.getD 0

/-- Meaning of parseFloat applied to a decimal string field with the
same guard substituting the string 0 when the field is missing. -/
def parseFloatOrZero (v : Option ℚ) : ℚ :=
  v.getD 0

/-- calculateCtr from GoogleAdsService (part_002): parses both
arguments as integers (0 when absent) and returns clicks over
impressions times 100 when impressions is positive, else 0. -/
def calculateCtr (clicks impressions : Option ℤ) : ℚ :=
  let c : ℤ := parseIntOrZero clicks
  let i : ℤ := parseIntOrZero impressions
  if 0 < i then ((c : ℚ) / (i : ℚ)) * 100 else 0

/-- calculateCpc from GoogleAdsService: cost_micros is parsed and
divided by 1000000; returns cost over clicks when clicks is positive,
else 0. -/
def calculateCpc (costMicros clicks : Option ℤ) : ℚ :=
  let cost : ℚ := (parseIntOrZero costMicros : ℚ) / 1000000
  let c : ℤ := parseIntOrZero clicks
  if 0 < c then cost / (c : ℚ) else 0

/-- calculateCpm from GoogleAdsService: cost over impressions times
1000 when impressions is positive, else 0. -/
def calculateCpm (costMicros impressions : Option ℤ) : ℚ :=
  let cost : ℚ := (parseIntOrZero costMicros : ℚ) / 1000000
  let i : ℤ := parseIntOrZero impressions
  if 0 < i then cost / (i : ℚ) * 1000 else 0

/-- calculateRoas from GoogleAdsService: conversions value over cost
when cost is positive, else 0. -/
def calculateRoas (conversionsValue : Option ℚ) (costMicros : Option ℤ) : ℚ :=
  let value : ℚ := parseFloatOrZero conversionsValue
  let cost : ℚ := (parseIntOrZero costMicros : ℚ) / 1000000
  if 0 < cost then value / cost else 0

/-- Raw metrics portion of one Google Ads search result row.  The API
reports impressions, clicks and cost_micros as int64 decimal strings and
conversions and conversions_value as float strings; fields may be
absent. -/
structure GoogleRawMetricsRow where
  impressions : Option ℤ
  clicks : Option ℤ
  costMicros : Option ℤ
  conversions : Option ℚ
  conversionsValue : Option ℚ
deriving DecidableEq

/-- Metrics normalization performed inside GoogleAdsService.getCampaigns
for each result row: parseInt on impressions and clicks, cost_micros
divided by 1000000 for spend (an absent field is coerced to 0 by the
source guard), parseFloat on conversions, and the four ratio helpers. -/
def normalizeCampaignMetrics (m : GoogleRawMetricsRow) : PlatformMetrics :=
  { impressions := (parseIntOrZero m.impressions : ℚ)
    clicks := (parseIntOrZero m.clicks : ℚ)
    spend := ((m.costMicros.getD 0 : ℤ) : ℚ) / 1000000
    reach := none
    frequency := none
    cpc := calculateCpc m.costMicros m.clicks
    cpm := calculateCpm m.costMicros m.impressions
    ctr := calculateCtr m.clicks m.impressions
    conversions := some (parseFloatOrZero m.conversions)
    costPerConversion := none
    roas := some (calculateRoas m.conversionsValue m.costMicros) }

/-- Metrics record built by GoogleAdsService.getAccountMetrics from the
aggregated totals: totalSpend is totalCostMicros over 1000000, the
ratio helpers receive the integer totals, roas guards on positive spend
and costPerConversion guards on positive conversions. -/
def accountMetricsOf (totalImpressions totalClicks totalCostMicros : ℤ)
    (totalConversions totalConversionsValue : ℚ) : PlatformMetrics :=
  let totalSpend : ℚ := (totalCostMicros : ℚ) / 1000000
  { impressions := (totalImpressions : ℚ)
    clicks := (totalClicks : ℚ)
    spend := totalSpend
    reach := none
    frequency := none
    cpc := calculateCpc (some totalCostMicros) (some totalClicks)
    cpm := calculateCpm (some totalCostMicros) (some totalImpressions)
    ctr := calculateCtr (some totalClicks) (some totalImpressions)
    conversions := some totalConversions
    costPerConversion := some (if 0 < totalConversions then totalSpend / totalConversions else 0)
    roas := some (if 0 < totalSpend then totalConversionsValue / totalSpend else 0) }

/-- Concrete raw row of the §8 scenario: impressions 1000, clicks 50,
cost_micros 100000000, no conversion fields. -/
def googleSampleRow : GoogleRawMetricsRow :=
  ⟨some 1000, some 50, some 100000000, none, none⟩

/-- GoogleAdsSession entity (google-ads-session.entity): one row per
user with access token, nullable refresh token, nullable selected
customer id and name, nullable manager and login customer ids and a
nullable token expiry. The generated id and audit columns are not part
of any modeled behavior. -/
structure GoogleAdsSession where
  userId : ℕ
  accessToken : String
  refreshToken : Option String
  customerId : Option String
  customerName : Option String
  managerCustomerId : Option String
  loginCustomerId : Option String
  tokenExpiresAt : Option ℤ
deriving DecidableEq

/-- Payload of a successful Google OAuth refresh response after the
source applies its default of 3600 to a missing expires_in. -/
structure RefreshGrant where
  accessToken : String
  expiresInSeconds : ℕ
deriving DecidableEq

/-- GoogleAdsService.refreshToken: with no session or no stored refresh
token it reports failure; a failed or unreachable token endpoint
(modeled by outcome none, covering both the non-ok branch and the catch
branch, neither of which touches the repository) reports failure and
leaves the row untouched; on success it saves the new access token and
expiry (now plus expires_in) in place and reports success. -/
def refreshToken (store : Option GoogleAdsSession) (outcome : Option RefreshGrant)
    (now : ℤ) : Option GoogleAdsSession × Bool :=
  match store with
  | none => (none, false)
  | some s =>
    match s.refreshToken with
    | none => (some s, false)
    | some _ =>
      match outcome with
      | none => (some s, false)
      | some g =>
          (some { s with accessToken := g.accessToken
                         tokenExpiresAt := some (now + (g.expiresInSeconds : ℤ)) }, true)

/-- GoogleAdsService.getSession: returns the stored row, but when the
row exists, has an expiry, and that expiry is before now, it first runs
refreshToken, returning null on refresh failure and the re-fetched
(updated) row on success. Result: (store after the call, value returned
to the caller). -/
def getSession (store : Option GoogleAdsSession) (outcome : Option RefreshGrant)
    (now : ℤ) : Option GoogleAdsSession × Option GoogleAdsSession :=
  match store with
  | none => (none, none)
  | some s =>
    match s.tokenExpiresAt with
    | some exp =>
        if exp < now then
          match refreshToken (some s) outcome now with
          | (store2, true) => (store2, store2)
          | (store2, false) => (store2, none)
        else (some s, some s)
    | none => (some s, some s)

/-- GoogleAdsService.deleteSession: removes the row. -/
def deleteSession (_store : Option GoogleAdsSession) : Option GoogleAdsSession :=
  none

end GoogleAds

namespace TikTok

/-- TikTokSession entity (one row per user): access token, nullable
refresh token, nullable selected advertiser id and name, nullable token
and refresh-token expiries. -/
structure TikTokSession where
  userId : ℕ
  accessToken : String
  refreshToken : Option String
  advertiserId : Option String
  advertiserName : Option String
  tokenExpiresAt : Option ℤ
  refreshTokenExpiresAt : Option ℤ
deriving DecidableEq

/-- JavaScript a or-else b on optional string fields: an absent or
empty (falsy) string falls back to b. -/
def jsOrStr (a b : Option String) : Option String :=
  match a with
  | none => b
  | some s => if s = "" then b else some s

/-- JavaScript a or-else b on optional Date fields: a present Date
object is always truthy. -/
def jsOrTime (a b : Option ℤ) : Option ℤ :=
  match a with
  | none => b
  | some v => some v

/-- TikTokService.saveSession: upsert by userId. On an existing row the
access token is replaced and every other supplied field falls back to
the stored value when absent (the source uses JavaScript or-else); a
new row stores the arguments as given. Returns the saved row; the
(single-user) store afterwards holds exactly this row. -/
def saveSession (store : Option TikTokSession) (userId : ℕ) (accessToken : String)
    (refreshToken advertiserId advertiserName : Option String)
    (tokenExpiresAt refreshTokenExpiresAt : Option ℤ) : TikTokSession :=
  match store with
  | some s =>
      { s with accessToken := accessToken
               refreshToken := jsOrStr refreshToken s.refreshToken
               advertiserId := jsOrStr advertiserId s.advertiserId
               advertiserName := jsOrStr advertiserName s.advertiserName
               tokenExpiresAt := jsOrTime tokenExpiresAt s.tokenExpiresAt
               refreshTokenExpiresAt := jsOrTime refreshTokenExpiresAt s.refreshTokenExpiresAt }
  | none =>
      ⟨userId, accessToken, refreshToken, advertiserId, advertiserName,
        tokenExpiresAt, refreshTokenExpiresAt⟩

/-- TikTokService.getSession: findOneBy userId, with no expiry check
and no refresh attempt; the stored row is returned as-is. -/
def getSession (store : Option TikTokSession) : Option TikTokSession :=
  store

/-- TikTokService.deleteSession: removes the row. -/
def deleteSession (_store : Option TikTokSession) : Option TikTokSession :=
  none

/-- Outcome of the TikTok refresh_token HTTP call: the fetch promise
rejects (network error), the API answers with a nonzero code, or it
grants new tokens with expiry durations. -/
inductive RefreshOutcome where
  | networkError
  | apiError
  | granted (accessToken refreshTokenNew : String)
      (expiresInSeconds refreshExpiresInSeconds : ℕ)
deriving DecidableEq

/-- Result seen by the caller of refreshAccessToken: an exception
(UnauthorizedException or the propagated fetch rejection) or the saved
session. -/
inductive RefreshResult where
  | errorThrown
  | refreshed (s : TikTokSession)
deriving DecidableEq

/-- TikTokService.refreshAccessToken: with no row it throws; with a row
lacking a refresh token it deletes the row and throws; a network error
propagates out of fetch before any cleanup, leaving the row in place; a
nonzero API code deletes the row and throws; a grant saves the new
tokens and expiries (now plus the durations) through saveSession,
keeping the stored advertiser id and name. -/
def refreshAccessToken (store : Option TikTokSession) (outcome : RefreshOutcome)
    (now : ℤ) : Option TikTokSession × RefreshResult :=
  match store with
  | none => (none, .errorThrown)
  | some s =>
    match s.refreshToken with
    | none => (none, .errorThrown)
    | some _ =>
      match outcome with
      | .networkError => (some s, .errorThrown)
      | .apiError => (none, .errorThrown)
      | .granted tok rtok expIn rexpIn =>
          let saved := saveSession (some s) s.userId tok (some rtok)
            s.advertiserId s.advertiserName
            (some (now + (expIn : ℤ) * 1000)) (some (now + (rexpIn : ℤ) * 1000))
          (some saved, .refreshed saved)

end TikTok

namespace Facebook

/-- FacebookSession entity: one row per user with access token,
nullable selected ad account id and nullable token expiry. -/
structure FacebookSession where
  userId : ℕ
  accessToken : String
  adAccountId : Option String
  tokenExpiresAt : Option ℤ
deriving DecidableEq

/-- FacebookService.getFacebookSession: findOne by userId ordered by
updatedAt, with no expiry check and no refresh attempt; the stored row
is returned as-is. -/
def getFacebookSession (store : Option FacebookSession) : Option FacebookSession :=
  store

end Facebook

/-- updateFirst p f l applies f to the first element of l satisfying p
and keeps the rest unchanged; it models a TypeORM save of a single
found-and-mutated entity, which updates exactly that row. -/
def updateFirst {α : Type} (p : α → Bool) (f : α → α) : List α → List α
  | [] => []
  | x :: xs => if p x then f x :: xs else x :: updateFirst p f xs

namespace TikTok

/-- TikTokMetricsCache entity row: advertiser id, metric type (account,
campaign, adgroup or ad), nullable entity id, date-range string, cached
metrics payload and expiry. -/
structure TikTokMetricsCache where
  advertiserId : String
  metricType : String
  entityId : Option String
  dateRange : String
  metricData : PlatformMetrics
  expiresAt : ℤ
deriving DecidableEq

/-- cacheTTL constant of TikTokService: five minutes in milliseconds. -/
def cacheTTL : ℤ := 5 * 60 * 1000

/-- Row filter built by the where-clauses of getCachedMetrics and
cacheMetrics. The source passes entityId or-else undefined; TypeORM
drops an undefined condition entirely, so when the lookup entityId is
absent the entity id column is not constrained. -/
def cacheKeyMatches (advertiserId metricType : String) (entityId : Option String)
    (dateRange : String) (e : TikTokMetricsCache) : Bool :=
  e.advertiserId == advertiserId && e.metricType == metricType &&
    (match entityId with
     | some v => e.entityId == some v
     | none => true) &&
    e.dateRange == dateRange

/-- TikTokService.getCachedMetrics: findOne with the key filter plus
the condition expiresAt LessThan now, then return the payload only if
now is still before the found expiry, else null. Both Date
constructions are modeled by the same now; the second one can only be
later, which makes the guard even harder to satisfy. -/
def getCachedMetrics (cache : List TikTokMetricsCache) (advertiserId metricType : String)
    (entityId : Option String) (dateRange : String) (now : ℤ) : Option PlatformMetrics :=
  match cache.find? (fun e =>
      cacheKeyMatches advertiserId metricType entityId dateRange e &&
      decide (e.expiresAt < now)) with
  | some cached => if now < cached.expiresAt then some cached.metricData else none
  | none => none

/-- TikTokService.cacheMetrics: findOne with the key filter; when a row
is found its payload and expiry (now plus ttl) are overwritten in
place, otherwise a new row is created; the source always passes its
cacheTTL constant for the ttl. -/
def cacheMetrics (cache : List TikTokMetricsCache) (advertiserId metricType : String)
    (entityId : Option String) (dateRange : String) (metrics : PlatformMetrics)
    (now ttl : ℤ) : List TikTokMetricsCache :=
  let expiresAt := now + ttl
  match cache.find? (cacheKeyMatches advertiserId metricType entityId dateRange) with
  | some _ =>
      updateFirst (cacheKeyMatches advertiserId metricType entityId dateRange)
        (fun e => { e with metricData := metrics, expiresAt := expiresAt }) cache
  | none =>
      cache ++ [⟨advertiserId, metricType, entityId, dateRange, metrics, expiresAt⟩]

end TikTok

namespace GoogleAds

/-- GoogleAdsMetricsCache entity row (google-ads.module): user id,
customer id, date-range string, metrics payload and expiry. The table
has a non-unique index on (userId, customerId, dateRange) and a
generated primary key. -/
structure GoogleAdsMetricsCache where
  userId : ℕ
  customerId : String
  dateRange : String
  metricsData : PlatformMetrics
  expiresAt : ℤ
deriving DecidableEq

/-- Cache lookup inside GoogleAdsService.getAccountMetrics: findOne by
userId, customerId, dateRange with expiresAt MoreThan now; the found
payload is returned. -/
def metricsCacheLookup (cache : List GoogleAdsMetricsCache) (userId : ℕ)
    (customerId dateRange : String) (now : ℤ) : Option PlatformMetrics :=
  (cache.find? (fun e =>
      e.userId == userId && e.customerId == customerId && e.dateRange == dateRange &&
      decide (now < e.expiresAt))).map (fun e => e.metricsData)

/-- Cache write inside GoogleAdsService.getAccountMetrics: a repository
save of an object literal without a primary key, which inserts a new
row with expiry now plus the configured ttl. -/
def metricsCacheSave (cache : List GoogleAdsMetricsCache) (userId : ℕ)
    (customerId dateRange : String) (metrics : PlatformMetrics)
    (now ttl : ℤ) : List GoogleAdsMetricsCache :=
  cache ++ [⟨userId, customerId, dateRange, metrics, now + ttl⟩]

end GoogleAds

namespace Subscriptions

/-- PlatformSubscription entity fields read by the modeled operations:
id, owning user, platform, status and purchased seat quantity. -/
structure PlatformSubscription where
  id : ℕ
  userId : ℕ
  platform : String
  status : String
  quantity : ℕ
deriving DecidableEq

/-- PlatformSeat entity fields: owning subscription and user, platform,
ad account id, status (active, inactive or pending) and the added and
removed timestamps. -/
structure PlatformSeat where
  subscriptionId : ℕ
  userId : ℕ
  platform : String
  adAccountId : String
  status : String
  addedAt : ℤ
  removedAt : Option ℤ
deriving DecidableEq

/-- PlatformSubscriptionsService.countActiveSeats: count of seats of
the subscription whose status is active. -/
def countActiveSeats (seats : List PlatformSeat) (subscriptionId : ℕ) : ℕ :=
  (seats.filter (fun s => s.subscriptionId == subscriptionId && s.status == "active")).length

/-- PlatformSubscriptionsService.canAddMoreSeats: false when the
subscription does not exist, else true exactly when the active-seat
count is below the purchased quantity. -/
def canAddMoreSeats (subs : List PlatformSubscription) (seats : List PlatformSeat)
    (subscriptionId : ℕ) : Bool :=
  match subs.find? (fun p => p.id == subscriptionId) with
  | none => false
  | some sub => decide (countActiveSeats seats subscriptionId < sub.quantity)

/-- PlatformSubscriptionsService.removePlatformSeat: an update (not a
delete) setting status inactive and removedAt now on every seat row
matching (subscriptionId, adAccountId). -/
def removePlatformSeat (seats : List PlatformSeat) (subscriptionId : ℕ)
    (adAccountId : String) (now : ℤ) : List PlatformSeat :=
  seats.map (fun s =>
    if s.subscriptionId == subscriptionId && s.adAccountId == adAccountId then
      { s with status := "inactive", removedAt := some now }
    else s)

/-- OrganizationSeat entity fields: id, owning subscription and user,
ad account id and name, platform, status and the added and removed
timestamps. -/
structure OrganizationSeat where
  id : ℕ
  organizationSubscriptionId : ℕ
  userId : ℕ
  adAccountId : String
  adAccountName : String
  platform : String
  status : String
  addedAt : ℤ
  removedAt : Option ℤ
deriving DecidableEq

/-- SubscriptionsService.getOrganizationSeats: the seats of the user
whose status is active, optionally restricted to one platform (the
order-by clause of the source does not affect membership and is not
modeled). -/
def getOrganizationSeats (seats : List OrganizationSeat) (userId : ℕ)
    (platform : Option String) : List OrganizationSeat :=
  seats.filter (fun s => s.userId == userId && s.status == "active" &&
    match platform with
    | some p => s.platform == p
    | none => true)

/-- SubscriptionsService.deactivateOrganizationSeat: an update (not a
delete) setting status removed on the seat row with the given id; no
other column, in particular removedAt, is written. -/
def deactivateOrganizationSeat (seats : List OrganizationSeat) (seatId : ℕ) :
    List OrganizationSeat :=
  seats.map (fun s => if s.id == seatId then { s with status := "removed" } else s)

end Subscriptions

namespace TikTok

/-- TikTokService.validateAdvertiserAccess: loads the active
organization seats of the user for platform tiktok and checks that some
seat carries exactly the requested advertiser id; true models success
and false models the thrown ForbiddenException. -/
def validateAdvertiserAccess (seats : List Subscriptions.OrganizationSeat)
    (userId : ℕ) (advertiserId : String) : Bool :=
  (Subscriptions.getOrganizationSeats seats userId (some "tiktok")).any
    (fun seat => seat.adAccountId == advertiserId)

/-- Value of one field of a raw TikTok report row as seen by
JavaScript: absent, a present string that parseFloat cannot parse
(NaN), or a numeric string carrying a rational value. A non-numeric
string records whether it is nonempty, hence truthy. -/
inductive RawVal where
  | absent
  | nanStr (truthy : Bool)
  | numStr (q : ℚ)
deriving DecidableEq

/-- Meaning of parseFloat applied to a raw field followed by the
JavaScript or-else 0: an absent field (parseFloat of undefined is NaN)
and a non-numeric string both give 0; a numeric string gives its
value (a parsed 0 also or-elses to 0). -/
def rawOrZero (v : RawVal) : ℚ :=
  match v with
  | .absent => 0
  | .nanStr _ => 0
  | .numStr q => q

/-- JavaScript truthiness of a raw field: absent and the empty string
are falsy, every other string is truthy. -/
def rawTruthy (v : RawVal) : Bool :=
  match v with
  | .absent => false
  | .nanStr b => b
  | .numStr _ => true

/-- Meaning of plain parseFloat on a raw field, with none standing for
NaN. -/
def rawParseFloat (v : RawVal) : Option ℚ :=
  match v with
  | .absent => none
  | .nanStr _ => none
  | .numStr q => some q

/-- Metrics object of one TikTok report row; every field may be absent
or non-numeric. Field names follow the API keys. -/
structure TikTokRawMetrics where
  impressions : RawVal
  clicks : RawVal
  spend : RawVal
  reach : RawVal
  frequency : RawVal
  cpc : RawVal
  cpm : RawVal
  ctr : RawVal
  conversion : RawVal
  cost_per_conversion : RawVal
  total_purchase_value : RawVal
deriving DecidableEq

/-- TikTokService.transformMetrics: a missing metrics object yields the
all-zero record with the optional fields absent; otherwise every field
is parseFloat or-else 0, and roas is computed only when both
total_purchase_value and spend are truthy (none models a roas left
undefined as well as the non-finite result of dividing by a spend that
parses to 0 or of a NaN operand, values no modeled claim touches). -/
def transformMetrics (raw : Option TikTokRawMetrics) : PlatformMetrics :=
  match raw with
  | none =>
      { impressions := 0, clicks := 0, spend := 0, reach := none, frequency := none,
        cpc := 0, cpm := 0, ctr := 0, conversions := none,
        costPerConversion := none, roas := none }
  | some r =>
      { impressions := rawOrZero r.impressions
        clicks := rawOrZero r.clicks
        spend := rawOrZero r.spend
        reach := some (rawOrZero r.reach)
        frequency := some (rawOrZero r.frequency)
        cpc := rawOrZero r.cpc
        cpm := rawOrZero r.cpm
        ctr := rawOrZero r.ctr
        conversions := some (rawOrZero r.conversion)
        costPerConversion := some (rawOrZero r.cost_per_conversion)
        roas :=
          if rawTruthy r.total_purchase_value && rawTruthy r.spend then
            match rawParseFloat r.total_purchase_value, rawParseFloat r.spend with
            | some tv, some sv => if sv = 0 then none else some (tv / sv)
            | _, _ => none
          else none }

end TikTok

lemma rawOrZero_eq_zero_of_parse_none {v : TikTok.RawVal}
    (h : TikTok.rawParseFloat v = none) : TikTok.rawOrZero v = 0 := by
  cases v <;> simp_all [TikTok.rawParseFloat, TikTok.rawOrZero]

/-- C4: each derived ratio is 0 whenever its denominator is 0 and equals
the stated quotient otherwise, in the shared BaseAdPlatformService
helpers (over all rationals), in the GoogleAdsService helpers (whose
guards test positivity of the parsed count, equivalent to nonzero on
the nonnegative count domain), and in the roas and costPerConversion
fields built by GoogleAdsService.getAccountMetrics. Totality over the
rationals embeds the absence of NaN and Infinity: every division is
guarded. -/
theorem derived_ratios_zero_safe :
    (∀ clicks impressions : ℚ,
      (impressions = 0 → BaseAdPlatform.calculateCTR clicks impressions = 0) ∧
      (impressions ≠ 0 →
        BaseAdPlatform.calculateCTR clicks impressions = clicks / impressions * 100)) ∧
    (∀ spend clicks : ℚ,
      (clicks = 0 → BaseAdPlatform.calculateCPC spend clicks = 0) ∧
      (clicks ≠ 0 → BaseAdPlatform.calculateCPC spend clicks = spend / clicks)) ∧
    (∀ spend impressions : ℚ,
      (impressions = 0 → BaseAdPlatform.calculateCPM spend impressions = 0) ∧
      (impressions ≠ 0 →
        BaseAdPlatform.calculateCPM spend impressions = spend / impressions * 1000)) ∧
    (∀ revenue spend : ℚ,
      (spend = 0 → BaseAdPlatform.calculateROAS revenue spend = 0) ∧
      (spend ≠ 0 → BaseAdPlatform.calculateROAS revenue spend = revenue / spend)) ∧
    (∀ c i : Option ℤ,
      (GoogleAds.parseIntOrZero i = 0 → GoogleAds.calculateCtr c i = 0) ∧
      (0 < GoogleAds.parseIntOrZero i →
        GoogleAds.calculateCtr c i =
          (GoogleAds.parseIntOrZero c : ℚ) / (GoogleAds.parseIntOrZero i : ℚ) * 100)) ∧
    (∀ cm c : Option ℤ,
      (GoogleAds.parseIntOrZero c = 0 → GoogleAds.calculateCpc cm c = 0) ∧
      (0 < GoogleAds.parseIntOrZero c →
        GoogleAds.calculateCpc cm c =
          (GoogleAds.parseIntOrZero cm : ℚ) / 1000000 / (GoogleAds.parseIntOrZero c : ℚ))) ∧
    (∀ cm i : Option ℤ,
      (GoogleAds.parseIntOrZero i = 0 → GoogleAds.calculateCpm cm i = 0) ∧
      (0 < GoogleAds.parseIntOrZero i →
        GoogleAds.calculateCpm cm i =
          (GoogleAds.parseIntOrZero cm : ℚ) / 1000000 / (GoogleAds.parseIntOrZero i : ℚ) * 1000)) ∧
    (∀ (cv : Option ℚ) (cm : Option ℤ),
      ((GoogleAds.parseIntOrZero cm : ℚ) / 1000000 = 0 → GoogleAds.calculateRoas cv cm = 0) ∧
      (0 < (GoogleAds.parseIntOrZero cm : ℚ) / 1000000 →
        GoogleAds.calculateRoas cv cm =
          GoogleAds.parseFloatOrZero cv / ((GoogleAds.parseIntOrZero cm : ℚ) / 1000000))) ∧
    (∀ (ti tc tcm : ℤ) (tconv tcv : ℚ),
      ((tconv = 0 →
        (GoogleAds.accountMetricsOf ti tc tcm tconv tcv).costPerConversion = some 0) ∧
       (0 < tconv →
        (GoogleAds.accountMetricsOf ti tc tcm tconv tcv).costPerConversion =
          some ((tcm : ℚ) / 1000000 / tconv))) ∧
      (((tcm : ℚ) / 1000000 = 0 →
        (GoogleAds.accountMetricsOf ti tc tcm tconv tcv).roas = some 0) ∧
       (0 < (tcm : ℚ) / 1000000 →
        (GoogleAds.accountMetricsOf ti tc tcm tconv tcv).roas =
          some (tcv / ((tcm : ℚ) / 1000000))))) := by
  refine ⟨?_, ?_, ?_, ?_, ?_, ?_, ?_, ?_, ?_⟩
  · intro clicks impressions
    exact ⟨fun h => by simp [BaseAdPlatform.calculateCTR, h],
      fun h => by simp [BaseAdPlatform.calculateCTR, h]⟩
  · intro spend clicks
    exact ⟨fun h => by simp [BaseAdPlatform.calculateCPC, h],
      fun h => by simp [BaseAdPlatform.calculateCPC, h]⟩
  · intro spend impressions
    exact ⟨fun h => by simp [BaseAdPlatform.calculateCPM, h],
      fun h => by simp [BaseAdPlatform.calculateCPM, h]⟩
  · intro revenue spend
    exact ⟨fun h => by simp [BaseAdPlatform.calculateROAS, h],
      fun h => by simp [BaseAdPlatform.calculateROAS, h]⟩
  · intro c i
    exact ⟨fun h => by simp [GoogleAds.calculateCtr, h],
      fun h => by simp [GoogleAds.calculateCtr, h]⟩
  · intro cm c
    exact ⟨fun h => by simp [GoogleAds.calculateCpc, h],
      fun h => by simp [GoogleAds.calculateCpc, h, div_div]⟩
  · intro cm i
    exact ⟨fun h => by simp [GoogleAds.calculateCpm, h],
      fun h => by simp [GoogleAds.calculateCpm, h, div_div]⟩
  · intro cv cm
    exact ⟨fun h => by simp [GoogleAds.calculateRoas, h],
      fun h => by simp [GoogleAds.calculateRoas, h]⟩
  · intro ti tc tcm tconv tcv
    refine ⟨⟨fun h => ?_, fun h => ?_⟩, ⟨fun h => ?_, fun h => ?_⟩⟩ <;>
      simp [GoogleAds.accountMetricsOf, h]

/-- C4 witness: the zero-denominator branches and one positive branch
evaluated on concrete inputs. -/
theorem derived_ratios_zero_safe_witness :
    BaseAdPlatform.calculateCTR 7 0 = 0 ∧
    BaseAdPlatform.calculateCPC 5 0 = 0 ∧
    BaseAdPlatform.calculateCPM 5 0 = 0 ∧
    BaseAdPlatform.calculateROAS 9 0 = 0 ∧
    GoogleAds.calculateCtr (some 3) (some 0) = 0 ∧
    BaseAdPlatform.calculateCTR 1 2 = 1 / 2 * 100 ∧
    (GoogleAds.accountMetricsOf 10 5 0 0 0).costPerConversion = some 0 :=
  ⟨(derived_ratios_zero_safe.1 7 0).1 rfl,
   (derived_ratios_zero_safe.2.1 5 0).1 rfl,
   (derived_ratios_zero_safe.2.2.1 5 0).1 rfl,
   (derived_ratios_zero_safe.2.2.2.1 9 0).1 rfl,
   (derived_ratios_zero_safe.2.2.2.2.1 (some 3) (some 0)).1 rfl,
   (derived_ratios_zero_safe.1 1 2).2 (by norm_num),
   ((derived_ratios_zero_safe.2.2.2.2.2.2.2.2 10 5 0 0 0).1).1 rfl⟩

/-- C5: normalizing the Google Ads raw row carrying impressions 1000,
clicks 50 and cost_micros 100000000 yields impressions 1000, clicks 50,
spend 100 (micros divided by 1000000), ctr 5, cpc 2 and cpm 100. -/
theorem google_sample_row_normalizes :
    (GoogleAds.normalizeCampaignMetrics GoogleAds.googleSampleRow).impressions = 1000 ∧
    (GoogleAds.normalizeCampaignMetrics GoogleAds.googleSampleRow).clicks = 50 ∧
    (GoogleAds.normalizeCampaignMetrics GoogleAds.googleSampleRow).spend = 100 ∧
    (GoogleAds.normalizeCampaignMetrics GoogleAds.googleSampleRow).ctr = 5 ∧
    (GoogleAds.normalizeCampaignMetrics GoogleAds.googleSampleRow).cpc = 2 ∧
    (GoogleAds.normalizeCampaignMetrics GoogleAds.googleSampleRow).cpm = 100 := by
  refine ⟨?_, ?_, ?_, ?_, ?_, ?_⟩ <;>
    norm_num [GoogleAds.normalizeCampaignMetrics, GoogleAds.googleSampleRow,
      GoogleAds.calculateCtr, GoogleAds.calculateCpc, GoogleAds.calculateCpm,
      GoogleAds.parseIntOrZero]

/-- C6: canAddMoreSeats is true exactly when the count of active seats
of the subscription is strictly below the purchased quantity, whenever
the subscription row exists. -/
theorem canAddMoreSeats_iff_active_lt_quantity
    (subs : List Subscriptions.PlatformSubscription)
    (seats : List Subscriptions.PlatformSeat) (subscriptionId : ℕ)
    (sub : Subscriptions.PlatformSubscription)
    (h : subs.find? (fun p => p.id == subscriptionId) = some sub) :
    Subscriptions.canAddMoreSeats subs seats subscriptionId = true ↔
      Subscriptions.countActiveSeats seats subscriptionId < sub.quantity := by
  simp [Subscriptions.canAddMoreSeats, h]

/-- Subscription of the §8 scenario: quantity 2. -/
def tiktokSub : Subscriptions.PlatformSubscription := ⟨1, 7, "tiktok", "active", 2⟩

/-- First active seat of subscription 1. -/
def tiktokSeatA : Subscriptions.PlatformSeat := ⟨1, 7, "tiktok", "adv-a", "active", 0, none⟩

/-- Second active seat of subscription 1. -/
def tiktokSeatB : Subscriptions.PlatformSeat := ⟨1, 7, "tiktok", "adv-b", "active", 0, none⟩

/-- C6 witness: with quantity 2 and two active seats the equivalence is
instantiated and canAddMoreSeats indeed returns false. -/
theorem canAddMoreSeats_iff_witness :
    (Subscriptions.canAddMoreSeats [tiktokSub] [tiktokSeatA, tiktokSeatB] 1 = true ↔
      Subscriptions.countActiveSeats [tiktokSeatA, tiktokSeatB] 1 < tiktokSub.quantity) ∧
    Subscriptions.canAddMoreSeats [tiktokSub] [tiktokSeatA, tiktokSeatB] 1 = false :=
  ⟨canAddMoreSeats_iff_active_lt_quantity [tiktokSub] [tiktokSeatA, tiktokSeatB] 1 tiktokSub rfl,
   by decide⟩

/-- C7: validateAdvertiserAccess reports Forbidden (false) exactly when
no active seat of the user on platform tiktok carries the requested
advertiser id, and succeeds as soon as such a seat exists. -/
theorem validateAdvertiserAccess_iff_active_seat
    (seats : List Subscriptions.OrganizationSeat) (userId : ℕ) (advertiserId : String) :
    TikTok.validateAdvertiserAccess seats userId advertiserId = false ↔
      ¬ ∃ s ∈ seats, s.userId = userId ∧ s.status = "active" ∧
        s.platform = "tiktok" ∧ s.adAccountId = advertiserId := by
  rw [← Bool.not_eq_true, not_iff_not]
  simp [TikTok.validateAdvertiserAccess, Subscriptions.getOrganizationSeats,
    List.any_eq_true, List.mem_filter, and_assoc]

/-- C10: transformMetrics is total at the adapter boundary: a missing
report row yields the all-zero metrics with the optional fields absent,
and an absent or non-numeric individual field yields 0 in the
corresponding required output field. -/
theorem transformMetrics_total_zero_default :
    TikTok.transformMetrics none =
      ⟨0, 0, 0, none, none, 0, 0, 0, none, none, none⟩ ∧
    ∀ r : TikTok.TikTokRawMetrics,
      (TikTok.rawParseFloat r.impressions = none →
        (TikTok.transformMetrics (some r)).impressions = 0) ∧
      (TikTok.rawParseFloat r.clicks = none →
        (TikTok.transformMetrics (some r)).clicks = 0) ∧
      (TikTok.rawParseFloat r.spend = none →
        (TikTok.transformMetrics (some r)).spend = 0) ∧
      (TikTok.rawParseFloat r.cpc = none →
        (TikTok.transformMetrics (some r)).cpc = 0) ∧
      (TikTok.rawParseFloat r.cpm = none →
        (TikTok.transformMetrics (some r)).cpm = 0) ∧
      (TikTok.rawParseFloat r.ctr = none →
        (TikTok.transformMetrics (some r)).ctr = 0) := by
  refine ⟨rfl, fun r => ⟨?_, ?_, ?_, ?_, ?_, ?_⟩⟩ <;>
    (intro h; exact rawOrZero_eq_zero_of_parse_none h)

/-- Raw metrics row with every field missing. -/
def emptyRawMetrics : TikTok.TikTokRawMetrics :=
  ⟨.absent, .absent, .absent, .absent, .absent, .absent, .absent, .absent,
   .absent, .absent, .absent⟩

/-- C10 witness: the all-absent row is normalized to zeros. -/
theorem transformMetrics_total_witness :
    (TikTok.transformMetrics (some emptyRawMetrics)).impressions = 0 ∧
    (TikTok.transformMetrics (some emptyRawMetrics)).clicks = 0 ∧
    (TikTok.transformMetrics (some emptyRawMetrics)).spend = 0 ∧
    (TikTok.transformMetrics (some emptyRawMetrics)).cpc = 0 ∧
    (TikTok.transformMetrics (some emptyRawMetrics)).cpm = 0 ∧
    (TikTok.transformMetrics (some emptyRawMetrics)).ctr = 0 :=
  ⟨(transformMetrics_total_zero_default.2 emptyRawMetrics).1 rfl,
   (transformMetrics_total_zero_default.2 emptyRawMetrics).2.1 rfl,
   (transformMetrics_total_zero_default.2 emptyRawMetrics).2.2.1 rfl,
   (transformMetrics_total_zero_default.2 emptyRawMetrics).2.2.2.1 rfl,
   (transformMetrics_total_zero_default.2 emptyRawMetrics).2.2.2.2.1 rfl,
   (transformMetrics_total_zero_default.2 emptyRawMetrics).2.2.2.2.2 rfl⟩

/-- TikTok session whose token expiry (0) lies before the sample
current time 1000. -/
def expiredTikTokSession : TikTok.TikTokSession :=
  ⟨1, "stale-token", some "rtok-1", some "adv-1", some "Adv One", some 0, some 0⟩

/-- C1 counterexample: TikTokService.getSession hands the stored
session to the caller even though its expiry (0) is in the past
relative to now = 1000; it neither refreshes nor returns null. -/
theorem tiktok_getSession_returns_expired :
    TikTok.getSession (some expiredTikTokSession) = some expiredTikTokSession ∧
    expiredTikTokSession.tokenExpiresAt = some 0 ∧ (0 : ℤ) < 1000 :=
  ⟨rfl, rfl, by norm_num⟩

/-- C1 amended: only the Google Ads adapter enforces the property: its
getSession never hands out a session whose expiry lies before now
(refreshing or returning null instead), while TikTok getSession and
Facebook getFacebookSession return the stored row unconditionally. -/
theorem getSession_never_returns_expired_amended :
    (∀ (store : Option GoogleAds.GoogleAdsSession)
        (outcome : Option GoogleAds.RefreshGrant) (now : ℤ)
        (s : GoogleAds.GoogleAdsSession),
      (GoogleAds.getSession store outcome now).2 = some s →
      ∀ e : ℤ, s.tokenExpiresAt = some e → now ≤ e) ∧
    (∀ store : Option TikTok.TikTokSession, TikTok.getSession store = store) ∧
    (∀ store : Option Facebook.FacebookSession,
      Facebook.getFacebookSession store = store) := by
  refine ⟨?_, fun _ => rfl, fun _ => rfl⟩
  intro store outcome now s hret e hexp
  cases store with
  | none => simp [GoogleAds.getSession] at hret
  | some s0 =>
    cases hex : s0.tokenExpiresAt with
    | none =>
        simp [GoogleAds.getSession, hex] at hret
        rw [← hret, hex] at hexp
        exact Option.noConfusion hexp
    | some exp =>
        by_cases hlt : exp < now
        · cases hrt : s0.refreshToken with
          | none => simp [GoogleAds.getSession, hex, hlt, GoogleAds.refreshToken, hrt] at hret
          | some rt =>
            cases outcome with
            | none =>
                simp [GoogleAds.getSession, hex, hlt, GoogleAds.refreshToken, hrt] at hret
            | some g =>
                simp [GoogleAds.getSession, hex, hlt, GoogleAds.refreshToken, hrt] at hret
                rw [← hret] at hexp
                simp at hexp
                omega
        · simp [GoogleAds.getSession, hex, hlt] at hret
          rw [← hret, hex] at hexp
          rw [Option.some_inj] at hexp
          omega

/-- Google Ads session whose expiry 5000 is still in the future at
now = 1000. -/
def validGoogleSession : GoogleAds.GoogleAdsSession :=
  ⟨1, "tok-g", some "rtok-g", some "111", some "Acct", none, none, some 5000⟩

/-- C1 witness: the amended theorem instantiated at a stored unexpired
Google Ads session returned at now = 1000. -/
theorem getSession_never_returns_expired_witness :
    (GoogleAds.getSession (some validGoogleSession) none 1000).2 = some validGoogleSession ∧
    (1000 : ℤ) ≤ 5000 :=
  ⟨rfl, getSession_never_returns_expired_amended.1 (some validGoogleSession) none 1000
    validGoogleSession rfl 5000 rfl⟩

/-- Google Ads session with a refresh token and the expiry 0, already
past at now = 1000. -/
def googleSessionExpired : GoogleAds.GoogleAdsSession :=
  ⟨1, "tok-old", some "rtok-old", some "222", none, none, none, some 0⟩

/-- C3 counterexample: a failed Google Ads token refresh (failing token
endpoint, outcome none) leaves the session row in the store instead of
deleting it, and the subsequent getSession still finds the residual
stale row (returning null to the caller). -/
theorem google_refresh_failure_keeps_row :
    GoogleAds.refreshToken (some googleSessionExpired) none 1000 =
      (some googleSessionExpired, false) ∧
    GoogleAds.getSession (some googleSessionExpired) none 1000 =
      (some googleSessionExpired, none) ∧
    some googleSessionExpired ≠ (none : Option GoogleAds.GoogleAdsSession) :=
  ⟨rfl, rfl, by simp⟩

/-- C3 amended: TikTok deletes the session row when the refresh API
answers with an error code or when the stored session lacks a refresh
token (subsequent getSession then returns absent), but keeps the row on
a network error; Google Ads never deletes the row on refresh failure,
though its getSession returns null for an expired session whose refresh
failed, leaving the stale row stored. -/
theorem refresh_failure_session_removal_amended :
    (∀ (s : TikTok.TikTokSession) (rt : String) (now : ℤ), s.refreshToken = some rt →
      TikTok.refreshAccessToken (some s) .apiError now = (none, .errorThrown) ∧
      TikTok.getSession (TikTok.refreshAccessToken (some s) .apiError now).1 = none) ∧
    (∀ (s : TikTok.TikTokSession) (outcome : TikTok.RefreshOutcome) (now : ℤ),
      s.refreshToken = none →
      TikTok.refreshAccessToken (some s) outcome now = (none, .errorThrown)) ∧
    (∀ (s : TikTok.TikTokSession) (rt : String) (now : ℤ), s.refreshToken = some rt →
      TikTok.refreshAccessToken (some s) .networkError now = (some s, .errorThrown)) ∧
    (∀ (s : GoogleAds.GoogleAdsSession) (now : ℤ),
      GoogleAds.refreshToken (some s) none now = (some s, false)) ∧
    (∀ (s : GoogleAds.GoogleAdsSession) (e now : ℤ), s.tokenExpiresAt = some e →
      e < now → GoogleAds.getSession (some s) none now = (some s, none)) := by
  refine ⟨?_, ?_, ?_, ?_, ?_⟩
  · intro s rt now h
    constructor <;> simp [TikTok.refreshAccessToken, TikTok.getSession, h]
  · intro s outcome now h
    simp [TikTok.refreshAccessToken, h]
  · intro s rt now h
    simp [TikTok.refreshAccessToken, h]
  · intro s now
    cases h : s.refreshToken <;> simp [GoogleAds.refreshToken, h]
  · intro s e now he hlt
    cases h : s.refreshToken <;>
      simp [GoogleAds.getSession, GoogleAds.refreshToken, he, hlt, h]

/-- TikTok session with a refresh token, used to instantiate the
amended refresh-failure theorem. -/
def staleTikTokSession : TikTok.TikTokSession :=
  ⟨2, "tok-t", some "rtok-t", some "adv-2", none, some 0, some 0⟩

/-- C3 witness: the amended theorem instantiated at a TikTok session
whose refresh fails with an API error and at the expired Google Ads
session whose refresh endpoint fails. -/
theorem refresh_failure_session_removal_witness :
    TikTok.refreshAccessToken (some staleTikTokSession) .apiError 1000 =
      (none, .errorThrown) ∧
    GoogleAds.getSession (some googleSessionExpired) none 1000 =
      (some googleSessionExpired, none) :=
  ⟨(refresh_failure_session_removal_amended.1 staleTikTokSession "rtok-t" 1000 rfl).1,
   refresh_failure_session_removal_amended.2.2.2.2 googleSessionExpired 0 1000 rfl
     (by norm_num)⟩

/-- Sample metrics payload for the cache claims. -/
def sampleMetrics : PlatformMetrics :=
  ⟨1000, 50, 100, none, none, 2, 100, 5, none, none, none⟩

/-- Second, distinct sample metrics payload. -/
def sampleMetrics2 : PlatformMetrics :=
  ⟨2000, 80, 150, none, none, 3, 75, 4, none, none, none⟩

lemma getCachedMetrics_eq_none (cache : List TikTok.TikTokMetricsCache)
    (advertiserId metricType : String) (entityId : Option String)
    (dateRange : String) (now : ℤ) :
    TikTok.getCachedMetrics cache advertiserId metricType entityId dateRange now = none := by
  unfold TikTok.getCachedMetrics
  cases hf : cache.find? (fun e =>
      TikTok.cacheKeyMatches advertiserId metricType entityId dateRange e &&
      decide (e.expiresAt < now)) with
  | none => rfl
  | some cached =>
      have hp := List.find?_some hf
      simp only [Bool.and_eq_true, decide_eq_true_eq] at hp
      exact if_neg (not_lt.mpr (le_of_lt hp.2))

/-- C2: the TikTok metrics-cache read can never hit. Its findOne filter
demands expiresAt LessThan now while the subsequent guard demands now
strictly before expiresAt, an unsatisfiable conjunction, so writing the
cache and reading it back immediately (well within the five-minute ttl)
yields absent, and in fact every read yields absent. -/
theorem tiktok_cache_put_get_always_misses :
    TikTok.getCachedMetrics
      (TikTok.cacheMetrics [] "adv-1" "account" none "2024-01-01_2024-01-31"
        sampleMetrics 1000 TikTok.cacheTTL)
      "adv-1" "account" none "2024-01-01_2024-01-31" 1000 = none ∧
    (1000 : ℤ) < 1000 + TikTok.cacheTTL ∧
    ∀ (cache : List TikTok.TikTokMetricsCache) (advertiserId metricType : String)
      (entityId : Option String) (dateRange : String) (now : ℤ),
      TikTok.getCachedMetrics cache advertiserId metricType entityId dateRange now = none :=
  ⟨getCachedMetrics_eq_none _ _ _ _ _ _, by norm_num [TikTok.cacheTTL],
   getCachedMetrics_eq_none⟩

/-- C8 counterexample: two Google Ads metrics-cache writes for the same
(userId, customerId, dateRange) key leave two rows for that key, since
the write saves an id-less literal and therefore always inserts. -/
theorem google_cache_put_duplicates_rows :
    ((GoogleAds.metricsCacheSave
        (GoogleAds.metricsCacheSave [] 1 "cust-1" "2024-01-01_2024-01-31"
          sampleMetrics 0 100)
        1 "cust-1" "2024-01-01_2024-01-31" sampleMetrics2 50 100).filter
      (fun e => e.userId == 1 && e.customerId == "cust-1" &&
        e.dateRange == "2024-01-01_2024-01-31")).length = 2 := by
  rfl

lemma cacheKeyMatches_self (a mt : String) (eid : Option String) (d : String)
    (m : PlatformMetrics) (e : ℤ) :
    TikTok.cacheKeyMatches a mt eid d ⟨a, mt, eid, d, m, e⟩ = true := by
  cases eid <;> simp [TikTok.cacheKeyMatches]

lemma cacheMetrics_singleton (a mt : String) (eid : Option String) (d : String)
    (m0 : PlatformMetrics) (e0 : ℤ) (m : PlatformMetrics) (now ttl : ℤ) :
    TikTok.cacheMetrics [⟨a, mt, eid, d, m0, e0⟩] a mt eid d m now ttl =
      [⟨a, mt, eid, d, m, now + ttl⟩] := by
  simp [TikTok.cacheMetrics, List.find?, updateFirst, cacheKeyMatches_self]

lemma foldl_cacheMetrics_singleton (a mt : String) (eid : Option String) (d : String)
    (ttl : ℤ) : ∀ (ws : List (PlatformMetrics × ℤ)) (m0 : PlatformMetrics) (e0 : ℤ),
    ∃ m e, ws.foldl
        (fun c mw => TikTok.cacheMetrics c a mt eid d mw.1 mw.2 ttl)
        [⟨a, mt, eid, d, m0, e0⟩] = [⟨a, mt, eid, d, m, e⟩]
  | [], m0, e0 => ⟨m0, e0, rfl⟩
  | w :: ws, m0, e0 => by
      rw [List.foldl_cons, cacheMetrics_singleton]
      exact foldl_cacheMetrics_singleton a mt eid d ttl ws w.1 (w.2 + ttl)

lemma foldl_cacheMetrics_from_nil (a mt : String) (eid : Option String) (d : String)
    (ttl : ℤ) (w0 : PlatformMetrics × ℤ) (ws2 : List (PlatformMetrics × ℤ)) :
    ∃ m e, (w0 :: ws2).foldl
        (fun c mw => TikTok.cacheMetrics c a mt eid d mw.1 mw.2 ttl) [] =
      [⟨a, mt, eid, d, m, e⟩] := by
  rw [List.foldl_cons]
  exact foldl_cacheMetrics_singleton a mt eid d ttl ws2 w0.1 (w0.2 + ttl)

/-- C8 amended: the TikTok cacheMetrics write is an upsert: starting
from an empty cache, any nonempty sequence of writes for one composite
key leaves exactly one row, carrying that key, the payload of the last
write and expiry equal to the last write time plus the ttl. The Google
Ads metrics-cache write is not an upsert: every write inserts a fresh
row (the cache grows by one), so repeated writes for the same key
accumulate multiple rows. -/
theorem cache_put_upsert_amended :
    (∀ (cache : List GoogleAds.GoogleAdsMetricsCache) (userId : ℕ)
        (customerId dateRange : String) (metrics : PlatformMetrics) (now ttl : ℤ),
      (GoogleAds.metricsCacheSave cache userId customerId dateRange
        metrics now ttl).length = cache.length + 1) ∧
    (∀ (a mt : String) (eid : Option String) (d : String) (ttl : ℤ)
        (ws : List (PlatformMetrics × ℤ)) (w : PlatformMetrics × ℤ),
      (ws ++ [w]).foldl
          (fun c mw => TikTok.cacheMetrics c a mt eid d mw.1 mw.2 ttl) [] =
        [⟨a, mt, eid, d, w.1, w.2 + ttl⟩]) := by
  constructor
  · intro cache userId customerId dateRange metrics now ttl
    simp [GoogleAds.metricsCacheSave]
  · intro a mt eid d ttl ws w
    rw [List.foldl_append]
    cases ws with
    | nil =>
        rfl
    | cons w0 ws2 =>
        obtain ⟨m, e, hshape⟩ := foldl_cacheMetrics_from_nil a mt eid d ttl w0 ws2
        rw [hshape, List.foldl_cons, List.foldl_nil, cacheMetrics_singleton]

/-- Organization seat used by the seat-removal claims. -/
def orgSeat0 : Subscriptions.OrganizationSeat :=
  ⟨1, 10, 7, "abc", "Acct ABC", "tiktok", "active", 0, none⟩

/-- C9 counterexample: deactivateOrganizationSeat sets the seat status
to removed, not inactive, and writes no removal timestamp (removedAt
stays absent). -/
theorem deactivate_sets_removed_not_inactive :
    (Subscriptions.deactivateOrganizationSeat [orgSeat0] 1).map
      (fun s => (s.status, s.removedAt)) = [("removed", none)] ∧
    ("removed" : String) ≠ "inactive" :=
  ⟨rfl, by decide⟩

/-- C9 amended: neither removal operation deletes the seat row.
removePlatformSeat keeps every row and every non-updated field,
setting status inactive and removedAt now on the matching seats;
deactivateOrganizationSeat keeps every row and every other field
(including removedAt, so no removal timestamp is recorded), setting
status removed on the seat with the given id. -/
theorem seat_removal_soft_delete_amended :
    (∀ (seats : List Subscriptions.PlatformSeat) (sid : ℕ) (aid : String) (now : ℤ),
      (Subscriptions.removePlatformSeat seats sid aid now).length = seats.length) ∧
    (∀ (seats : List Subscriptions.PlatformSeat) (sid : ℕ) (aid : String) (now : ℤ)
        (i : ℕ) (s : Subscriptions.PlatformSeat), seats[i]? = some s →
      ∃ r, (Subscriptions.removePlatformSeat seats sid aid now)[i]? = some r ∧
        r.subscriptionId = s.subscriptionId ∧ r.userId = s.userId ∧
        r.platform = s.platform ∧ r.adAccountId = s.adAccountId ∧
        r.addedAt = s.addedAt ∧
        (s.subscriptionId = sid ∧ s.adAccountId = aid →
          r.status = "inactive" ∧ r.removedAt = some now) ∧
        (¬(s.subscriptionId = sid ∧ s.adAccountId = aid) → r = s)) ∧
    (∀ (seats : List Subscriptions.OrganizationSeat) (seatId : ℕ),
      (Subscriptions.deactivateOrganizationSeat seats seatId).length = seats.length) ∧
    (∀ (seats : List Subscriptions.OrganizationSeat) (seatId i : ℕ)
        (s : Subscriptions.OrganizationSeat), seats[i]? = some s →
      ∃ r, (Subscriptions.deactivateOrganizationSeat seats seatId)[i]? = some r ∧
        r.id = s.id ∧ r.organizationSubscriptionId = s.organizationSubscriptionId ∧
        r.userId = s.userId ∧ r.adAccountId = s.adAccountId ∧
        r.adAccountName = s.adAccountName ∧ r.platform = s.platform ∧
        r.addedAt = s.addedAt ∧ r.removedAt = s.removedAt ∧
        (s.id = seatId → r.status = "removed") ∧
        (s.id ≠ seatId → r.status = s.status)) := by
  refine ⟨?_, ?_, ?_, ?_⟩
  · intro seats sid aid now
    simp [Subscriptions.removePlatformSeat]
  · intro seats sid aid now i s hs
    have hmap : (Subscriptions.removePlatformSeat seats sid aid now)[i]? =
        some (if s.subscriptionId == sid && s.adAccountId == aid then
          { s with status := "inactive", removedAt := some now } else s) := by
      simp [Subscriptions.removePlatformSeat, List.getElem?_map, hs]
    by_cases hc : (s.subscriptionId == sid && s.adAccountId == aid) = true
    · have hc2 : s.subscriptionId = sid ∧ s.adAccountId = aid := by
        simpa [Bool.and_eq_true] using hc
      rw [hc] at hmap
      exact ⟨{ s with status := "inactive", removedAt := some now },
        by simpa using hmap, rfl, rfl, rfl, rfl, rfl,
        fun _ => ⟨rfl, rfl⟩, fun hn => absurd hc2 hn⟩
    · have hcb : (s.subscriptionId == sid && s.adAccountId == aid) = false :=
        Bool.eq_false_iff.mpr hc
      rw [hcb] at hmap
      refine ⟨s, by simpa using hmap, rfl, rfl, rfl, rfl, rfl, fun hcon => ?_, fun _ => rfl⟩
      exact absurd (by simp [hcon.1, hcon.2]) hc
  · intro seats seatId
    simp [Subscriptions.deactivateOrganizationSeat]
  · intro seats seatId i s hs
    have hmap : (Subscriptions.deactivateOrganizationSeat seats seatId)[i]? =
        some (if s.id == seatId then { s with status := "removed" } else s) := by
      simp [Subscriptions.deactivateOrganizationSeat, List.getElem?_map, hs]
    by_cases hc : s.id = seatId
    · rw [if_pos (by simp [hc])] at hmap
      exact ⟨{ s with status := "removed" }, by simpa using hmap,
        rfl, rfl, rfl, rfl, rfl, rfl, rfl, rfl, fun _ => rfl, fun hn => absurd hc hn⟩
    · rw [if_neg (by simp [hc])] at hmap
      exact ⟨s, by simpa using hmap, rfl, rfl, rfl, rfl, rfl, rfl, rfl, rfl,
        fun hcon => absurd hcon hc, fun _ => rfl⟩

/-- Platform seat used to instantiate the amended seat-removal
theorem. -/
def platSeat0 : Subscriptions.PlatformSeat :=
  ⟨3, 7, "tiktok", "acc-x", "active", 5, none⟩

/-- C9 witness: the amended theorem instantiated at a one-row platform
seat store and at the one-row organization seat store. -/
theorem seat_removal_soft_delete_witness :
    (∃ r, (Subscriptions.removePlatformSeat [platSeat0] 3 "acc-x" 50)[0]? = some r ∧
      r.subscriptionId = platSeat0.subscriptionId ∧ r.userId = platSeat0.userId ∧
      r.platform = platSeat0.platform ∧ r.adAccountId = platSeat0.adAccountId ∧
      r.addedAt = platSeat0.addedAt ∧
      (platSeat0.subscriptionId = 3 ∧ platSeat0.adAccountId = "acc-x" →
        r.status = "inactive" ∧ r.removedAt = some 50) ∧
      (¬(platSeat0.subscriptionId = 3 ∧ platSeat0.adAccountId = "acc-x") →
        r = platSeat0)) ∧
    (∃ r, (Subscriptions.deactivateOrganizationSeat [orgSeat0] 1)[0]? = some r ∧
      r.id = orgSeat0.id ∧ r.organizationSubscriptionId = orgSeat0.organizationSubscriptionId ∧
      r.userId = orgSeat0.userId ∧ r.adAccountId = orgSeat0.adAccountId ∧
      r.adAccountName = orgSeat0.adAccountName ∧ r.platform = orgSeat0.platform ∧
      r.addedAt = orgSeat0.addedAt ∧ r.removedAt = orgSeat0.removedAt ∧
      (orgSeat0.id = 1 → r.status = "removed") ∧
      (orgSeat0.id ≠ 1 → r.status = orgSeat0.status)) :=
  ⟨seat_removal_soft_delete_amended.2.1 [platSeat0] 3 "acc-x" 50 0 platSeat0 rfl,
   seat_removal_soft_delete_amended.2.2.2 [orgSeat0] 1 0 orgSeat0 rfl⟩
